import Mathlib

/-!
Shallow embedding, in Lean 4, of the capture core of the `digit-gui`
repository (files `digit_controller.py` and `digit_gui.py`).

Conventions of the embedding:
* Python object attributes become fields of Lean structures; methods become
  functions from the structure (plus explicit inputs) to the updated
  structure (plus outputs).
* Calls on the physical device (`set_fps`, `set_resolution`, `set_intensity`,
  `disconnect`) are recorded in an operation trace `ops` on the device state,
  so that *whether* and *in which order* hardware is touched is provable.
* Python list indexing `xs[i]` (which accepts negative indices counting from
  the end, and raises `IndexError` otherwise) is modelled by `pyGet?`, with
  `none` standing for the raised `IndexError`.
* `tkinter` label updates `label.config(text=...)` append the new text to a
  `statusLog` trace (and set the current `status`), so emitted status
  messages can be counted.
* The filesystem is modelled by the list `existing_dirs` of directories that
  exist (`os.path.exists`) and the list `files_written` of full path names
  passed to `cv2.imwrite`.  `os.makedirs(..., exist_ok=True)` adds the
  directory and is modelled as succeeding (it creates all intermediate
  directories on a writable filesystem); no claim exercises its failure.
* `root.after(delay, cb)` scheduling of the non-recursive callbacks is
  modelled by appending a `Sched` tag to the `scheduled` queue; the
  self-rescheduling loops (`update_video_frame`, `start_countdown`) are
  modelled by the driver `runPump` and by direct structural recursion,
  faithful to the single-threaded tkinter event loop.
-/

namespace DigitSpec

/-- `MAX_NUM_FRAMES` constant of `digit_gui.py`. -/
def MAX_NUM_FRAMES : Nat := 600

/-- `MAX_INTERACTION_NUM` constant of `digit_gui.py`. -/
def MAX_INTERACTION_NUM : Nat := 9999

/-- `MAX_COUNTDOWN_SECS` constant of `digit_gui.py`. -/
def MAX_COUNTDOWN_SECS : Nat := 10

/-- A resolution dictionary such as `{'width': 640, 'height': 480}`. -/
structure Resolution where
  width : Nat
  height : Nat
deriving DecidableEq, Repr

/-- An operation forwarded to the physical DIGIT device. -/
inductive DeviceOp where
  | setFps (v : Nat)
  | setResolution (r : Resolution)
  | setIntensity (v : Nat)
  | disconnect
deriving DecidableEq, Repr

/-- The state of a connected `Digit` instance (the handle held in
`DigitController.digit`).  `intensity` is the raw readback value (the device
reads back on a 0..4095 scale); `lightingMin`/`lightingMax` are the
`LIGHTING_MIN`/`LIGHTING_MAX` class constants (0 and 15); `ops` is the trace
of hardware operations issued on this handle. -/
structure DigitDevice where
  fps : Nat
  resolution : Resolution
  intensity : Nat
  lightingMin : Nat
  lightingMax : Nat
  ops : List DeviceOp
deriving DecidableEq, Repr

/-- `digit.set_fps(v)`: forwarded to hardware, recorded in the trace. -/
def digitSetFps (d : DigitDevice) (v : Nat) : DigitDevice :=
  { d with fps := v, ops := d.ops ++ [DeviceOp.setFps v] }

/-- `digit.set_resolution({'resolution': r})`: forwarded to hardware,
recorded in the trace. -/
def digitSetResolution (d : DigitDevice) (r : Resolution) : DigitDevice :=
  { d with resolution := r, ops := d.ops ++ [DeviceOp.setResolution r] }

/-- `digit.set_intensity(v)`: forwarded to hardware, recorded in the trace.
The device readback (`digit.intensity`) is on the 0..4095 scale, 263 counts
per set-scale step, as described by the comments in `digit_gui.py`. -/
def digitSetIntensity (d : DigitDevice) (v : Nat) : DigitDevice :=
  { d with intensity := v * 263, ops := d.ops ++ [DeviceOp.setIntensity v] }

/-- One entry of the `Digit.STREAMS` class dictionary: a mode name mapped to
its fps sub-dictionary (key text and value) and its resolution. -/
structure StreamEntry where
  mode : String
  fps : List (String × Nat)
  resolution : Resolution
deriving DecidableEq, Repr

/-- The `Digit.STREAMS` dictionary, as an ordered association list (Python
dictionaries preserve insertion order). -/
abbrev StreamsTable : Type := List StreamEntry

/-- Dictionary lookup `STREAMS[mode]['fps'][fpsText]`; `none` is the raised
`KeyError`. -/
def streamsFpsLookup (tbl : StreamsTable) (mode fpsText : String) : Option Nat :=
  match List.find? (fun e => e.mode = mode) tbl with
  | some e => e.fps.lookup fpsText
  | none => none

/-- Python list indexing: a negative index counts from the end; an index
outside `[-len, len)` raises `IndexError` (modelled as `none`). -/
def pyGet? (l : List α) (i : Int) : Option α :=
  let j : Int := if i < 0 then i + l.length else i
  if 0 ≤ j ∧ j < l.length then l.get? j.toNat else none

/-- The state of a `DigitController` object: the optional device handle and
serial, the device `STREAMS` table, and the four parallel catalog lists
populated by `_populate_stream_lists`. -/
structure DigitController where
  digit : Option DigitDevice
  serial : Option String
  streams : StreamsTable
  stream_strings : List String
  mode_options : List String
  fps_options : List Nat
  resolutions : List Resolution
deriving DecidableEq, Repr

/-- `_populate_stream_lists` flattening of the streams table into the
`stream_strings` list. -/
def populateStrings (tbl : StreamsTable) : List String :=
  tbl.flatMap (fun e => e.fps.map (fun f => e.mode ++ " " ++ toString f.2 ++ "fps"))

/-- `_populate_stream_lists` flattening into `mode_options`. -/
def populateModes (tbl : StreamsTable) : List String :=
  tbl.flatMap (fun e => e.fps.map (fun _ => e.mode))

/-- `_populate_stream_lists` flattening into `fps_options`. -/
def populateFps (tbl : StreamsTable) : List Nat :=
  tbl.flatMap (fun e => e.fps.map (fun f => f.2))

/-- `_populate_stream_lists` flattening into `resolutions`. -/
def populateResolutions (tbl : StreamsTable) : List Resolution :=
  tbl.flatMap (fun e => e.fps.map (fun _ => e.resolution))

/-- `DigitController.__init__`: stores the connection result and populates
the stream lists only when a device was connected (`if self.digit:`). -/
def mkController (conn : Option (DigitDevice × String)) (tbl : StreamsTable) :
    DigitController :=
  match conn with
  | none =>
      { digit := none, serial := none, streams := tbl,
        stream_strings := [], mode_options := [], fps_options := [],
        resolutions := [] }
  | some (d, s) =>
      { digit := some d, serial := some s, streams := tbl,
        stream_strings := populateStrings tbl,
        mode_options := populateModes tbl,
        fps_options := populateFps tbl,
        resolutions := populateResolutions tbl }

/-- `get_stream_strings`. -/
def get_stream_strings (c : DigitController) : List String :=
  c.stream_strings

/-- `get_max_intensity`. -/
def get_max_intensity (c : DigitController) : Option Nat :=
  match c.digit with
  | some d => some d.lightingMax
  | none => none

/-- `get_min_intensity`. -/
def get_min_intensity (c : DigitController) : Option Nat :=
  match c.digit with
  | some d => some d.lightingMin
  | none => none

/-- `get_stream_mode`: looks up the current resolution in `resolutions` and
returns the mode at the same index. -/
def get_stream_mode (c : DigitController) : Option String :=
  match c.digit with
  | some d =>
      match c.resolutions.indexOf? d.resolution with
      | some i => c.mode_options.get? i
      | none => none
  | none => none

/-- `get_resolution`. -/
def get_resolution (c : DigitController) : Option Resolution :=
  match c.digit with
  | some d => some d.resolution
  | none => none

/-- `get_fps`. -/
def get_fps (c : DigitController) : Option Nat :=
  match c.digit with
  | some d => some d.fps
  | none => none

/-- `get_intensity` (raw readback scale). -/
def get_intensity (c : DigitController) : Option Nat :=
  match c.digit with
  | some d => some d.intensity
  | none => none

/-- A decoded video frame; its pixel content is irrelevant to the claims. -/
structure Frame where
  id : Nat
deriving DecidableEq, Repr

/-- `get_frame`: `None` when no device handle is held. -/
def get_frame (c : DigitController) : Option Frame :=
  match c.digit with
  | some _ => some { id := 0 }
  | none => none

/-- `set_stream(index)`: with no device handle returns `False`; otherwise the
`try` block reads `mode_options[index]`, `fps_options[index]`, looks up
`Digit.STREAMS[mode]['fps'][f'{fps}fps']`, calls `set_fps`, reads
`resolutions[index]` and calls `set_resolution`, returning `True`; any
failure is caught and `False` returned (with whatever hardware operations had
already been issued kept, since the exception interrupts the block). -/
def set_stream (c : DigitController) (index : Int) : DigitController × Bool :=
  match c.digit with
  | none => (c, false)
  | some d =>
    match pyGet? c.mode_options index with
    | none => (c, false)
    | some stream_mode =>
      match pyGet? c.fps_options index with
      | none => (c, false)
      | some fps =>
        match streamsFpsLookup c.streams stream_mode (toString fps ++ "fps") with
        | none => (c, false)
        | some fps_setting =>
          let d1 := digitSetFps d fps_setting
          match pyGet? c.resolutions index with
          | none => ({ c with digit := some d1 }, false)
          | some res =>
            ({ c with digit := some (digitSetResolution d1 res) }, true)

/-- `set_intensity(value)`: with no device handle returns `False`; otherwise
forwards to hardware only when `min <= value <= max`, else prints and
returns `False`. -/
def set_intensity (c : DigitController) (value : Nat) : DigitController × Bool :=
  match c.digit with
  | none => (c, false)
  | some d =>
      if d.lightingMin ≤ value ∧ value ≤ d.lightingMax then
        ({ c with digit := some (digitSetIntensity d value) }, true)
      else
        (c, false)

/-- `disconnect`: issues `digit.disconnect()` when a handle is held (the
handle itself is kept); any error is caught and ignored. -/
def controllerDisconnect (c : DigitController) : DigitController :=
  match c.digit with
  | some d => { c with digit := some { d with ops := d.ops ++ [DeviceOp.disconnect] } }
  | none => c

/-- A callback handed to `root.after` that is not itself a repeating loop:
`capture_complete_message` (scheduled by `capture_complete`) and
`capture_complete_final` (scheduled by the failed-save-directory branch of
`start_capture` and by `capture_complete_message`). -/
inductive Sched where
  | completeMessage
  | completeFinal
deriving DecidableEq, Repr

/-- The state of the `DigitGUI` object, together with the modelled
environment: the filesystem (`existing_dirs`, `files_written`), the status
label (`status` plus the `statusLog` trace of every text ever set on it),
and the pending one-shot callbacks (`scheduled`).  `gui_enabled` models the
common state of the interactive widgets, which `enable_gui`/`disable_gui`
always switch together; `lost_popup` records that
`show_lost_connection_popup` ran. -/
structure GUIState where
  dc : DigitController
  gui : Bool
  view_running : Bool
  capturing : Bool
  update_interval : Nat
  user_save_dir : String
  save_dir : String
  num_frames : Nat
  interaction_num : Nat
  countdown_secs : Nat
  countdown : Bool
  frame_count : Nat
  intensity_slider : Nat
  stream_index : Int
  gui_enabled : Bool
  lost_popup : Bool
  status : String
  statusLog : List String
  existing_dirs : List String
  files_written : List String
  scheduled : List Sched
deriving DecidableEq, Repr

/-- `self.capture_status_label.config(text=t)`: sets the label and records
the text in the emission trace. -/
def setStatus (s : GUIState) (t : String) : GUIState :=
  { s with status := t, statusLog := s.statusLog ++ [t] }

/-- `enable_gui`: re-enables the interactive widgets. -/
def enable_gui (s : GUIState) : GUIState :=
  { s with gui_enabled := true }

/-- `disable_gui`: disables the interactive widgets (among them the Capture
button bound to `start_capture`). -/
def disable_gui (s : GUIState) : GUIState :=
  { s with gui_enabled := false }

/-- `pad_number`: `str(num).zfill(4)`. -/
def pad_number (num : Nat) : String :=
  let s := toString num
  if s.length < 4 then String.mk (List.replicate (4 - s.length) '0') ++ s else s

/-- `get_save_dir`: with `num_frames > 1` derives
`user_save_dir/interaction_NNNN`, creates it (`os.makedirs` with
`exist_ok=True`) and returns it; with `num_frames == 1` returns
`user_save_dir` unchanged, creating nothing. -/
def get_save_dir (s : GUIState) : GUIState × String :=
  if s.num_frames > 1 then
    let interaction_folder :=
      s.user_save_dir ++ "/interaction_" ++ pad_number s.interaction_num
    ({ s with existing_dirs := interaction_folder :: s.existing_dirs },
      interaction_folder)
  else
    (s, s.user_save_dir)

/-- `refresh_update_interval`: `1000 // fps` (the `None` case cannot arise
while the GUI is up, since it is only built after a successful connect). -/
def refresh_update_interval (s : GUIState) : GUIState :=
  match get_fps s.dc with
  | some fps => { s with update_interval := 1000 / fps }
  | none => s

/-- `save_frame_file(frame)`: derives the file name from the frame count
(multi-frame capture) or the interaction number (single frame) and writes
`{save_dir}/{fname}.jpg`; `wr` is whether the `cv2.imwrite` call succeeds
(its exception is caught, printed and otherwise ignored). -/
def save_frame_file (wr : Bool) (s : GUIState) : GUIState :=
  let fname :=
    if s.num_frames > 1 then "frame_" ++ pad_number s.frame_count
    else "interaction_" ++ pad_number s.interaction_num
  if wr then
    { s with files_written := s.files_written ++ [s.save_dir ++ "/" ++ fname ++ ".jpg"] }
  else s

/-- `capture_complete`: clears the capturing flag and frame count,
increments the interaction number only while strictly below
`MAX_INTERACTION_NUM` (briefly re-enabling the spinbox to refresh its
display), and schedules `capture_complete_message` after 500 ms. -/
def capture_complete (s : GUIState) : GUIState :=
  let s := { s with capturing := false, frame_count := 0 }
  let s :=
    if s.interaction_num < MAX_INTERACTION_NUM then
      { s with interaction_num := s.interaction_num + 1 }
    else s
  { s with scheduled := s.scheduled ++ [Sched.completeMessage] }

/-- `capture_frame(frame)`: increments the frame count, reports progress,
saves the frame, and on reaching `num_frames` runs `capture_complete`. -/
def capture_frame (wr : Bool) (s : GUIState) : GUIState :=
  let s := { s with frame_count := s.frame_count + 1 }
  let s := setStatus s
    ("Capturing frame " ++ toString s.frame_count ++ "/" ++ toString s.num_frames)
  let s := save_frame_file wr s
  if s.frame_count ≥ s.num_frames then capture_complete s else s

/-- `capture_complete_message`: shows `"Capture complete!"` and schedules
`capture_complete_final` after 1000 ms. -/
def capture_complete_message (s : GUIState) : GUIState :=
  let s := setStatus s "Capture complete!"
  { s with scheduled := s.scheduled ++ [Sched.completeFinal] }

/-- `capture_complete_final`: resets the status label and re-enables the
GUI. -/
def capture_complete_final (s : GUIState) : GUIState :=
  enable_gui (setStatus s "Ready to capture")

/-- `start_countdown(seconds)`: sets the label to
`f"Capturing in {seconds} seconds..."` (before any zero test), then either
schedules itself with `seconds - 1` after 1000 ms — modelled as direct
recursion, faithful to the single-threaded callback chain — or, at zero,
resets the frame count and raises the capturing flag. -/
def start_countdown (s : GUIState) (seconds : Nat) : GUIState :=
  let s1 := setStatus s ("Capturing in " ++ toString seconds ++ " seconds...")
  match seconds with
  | Nat.succ n => start_countdown s1 n
  | 0 => { s1 with frame_count := 0, capturing := true }

/-- `start_capture`: disables the GUI, resolves (and for multi-frame
captures creates) the save directory, and then either reports a missing
directory (scheduling the reset after 2000 ms), starts the countdown, or
starts capturing immediately with a fresh frame count. -/
def start_capture (s : GUIState) : GUIState :=
  let s := disable_gui s
  let (s, dir) := get_save_dir s
  let s := { s with save_dir := dir }
  if dir ∉ s.existing_dirs then
    let s := setStatus s "Capture failed:\nSave directory does not exist"
    { s with scheduled := s.scheduled ++ [Sched.completeFinal] }
  else
    if s.countdown then start_countdown s s.countdown_secs
    else { s with frame_count := 0, capturing := true }

/-- A click on the Capture button: a `tkinter` button in the `disabled`
state does not invoke its bound command, so the click runs `start_capture`
only while the interactive widgets are enabled. -/
def press_capture (s : GUIState) : GUIState :=
  if s.gui_enabled then start_capture s else s

/-- Stopping the live-view pump: the `self.view_running = False` assignment
(performed in `close_app`); `update_video_frame` re-schedules itself only
while this flag holds. -/
def pump_stop (s : GUIState) : GUIState :=
  { s with view_running := false }

/-- The outcome of the `self.dc.get_frame()` call inside
`update_video_frame`: a decoded frame, `None`, or a raised exception (the
disconnect signal). -/
inductive FrameResult where
  | frame
  | noFrame
  | err
deriving DecidableEq, Repr

/-- One tick of `update_video_frame`; `wr` is whether a frame write inside
a possible `capture_frame` call succeeds.  Returns the new state and whether
the next tick was scheduled (`root.after` is reached only when no exception
was raised; the `except` branch disables the GUI and shows the
lost-connection popup without re-scheduling). -/
def update_video_frame (r : FrameResult) (wr : Bool) (s : GUIState) :
    GUIState × Bool :=
  if s.view_running = false then (s, false)
  else
    match r with
    | FrameResult.err => ({ disable_gui s with lost_popup := true }, false)
    | FrameResult.noFrame => (s, true)
    | FrameResult.frame =>
        let s := if s.capturing then capture_frame wr s else s
        (s, true)

/-- Runs the live-view pump on a list of tick inputs, stopping as soon as a
tick does not re-schedule the next one. -/
def runPump : List (FrameResult × Bool) → GUIState → GUIState
  | [], s => s
  | (r, wr) :: rest, s =>
      let p := update_video_frame r wr s
      if p.2 then runPump rest p.1 else p.1

/-- Python `value.isdigit()` (ASCII digits; `False` on the empty string). -/
def pyIsDigit (value : String) : Bool :=
  !value.data.isEmpty && value.data.all Char.isDigit

/-- Python `int(value)` on a digit string: base-10 left fold. -/
def pyInt (value : String) : Nat :=
  value.data.foldl (fun n c => n * 10 + (c.toNat - Char.toNat '0')) 0

/-- `validate_num_frames(value)`: empty input is allowed without an update;
a digit string within `[1, MAX_NUM_FRAMES]` updates `num_frames` and is
accepted; anything else is refused, leaving `num_frames` unchanged. -/
def validate_num_frames (s : GUIState) (value : String) : GUIState × Bool :=
  if value = "" then (s, true)
  else if pyIsDigit value then
    let num := pyInt value
    if 1 ≤ num ∧ num ≤ MAX_NUM_FRAMES then
      ({ s with num_frames := num }, true)
    else (s, false)
  else (s, false)

/-- `validate_interaction_num(value)`: as `validate_num_frames`, with bound
`MAX_INTERACTION_NUM` and target field `interaction_num`. -/
def validate_interaction_num (s : GUIState) (value : String) : GUIState × Bool :=
  if value = "" then (s, true)
  else if pyIsDigit value then
    let num := pyInt value
    if 1 ≤ num ∧ num ≤ MAX_INTERACTION_NUM then
      ({ s with interaction_num := num }, true)
    else (s, false)
  else (s, false)

/-- `validate_countdown_secs(value)`: as `validate_num_frames`, with bound
`MAX_COUNTDOWN_SECS` and target field `countdown_secs`. -/
def validate_countdown_secs (s : GUIState) (value : String) : GUIState × Bool :=
  if value = "" then (s, true)
  else if pyIsDigit value then
    let num := pyInt value
    if 1 ≤ num ∧ num ≤ MAX_COUNTDOWN_SECS then
      ({ s with countdown_secs := num }, true)
    else (s, false)
  else (s, false)

/-- The persisted preferences record (`user_prefs.json`): a flat JSON
object.  Each field is `none` when its key is absent.  The `intensity`
value is stored exactly as `self.dc.get_intensity()` returned it, i.e. on
the raw readback scale. -/
structure PrefsDict where
  intensity : Option Nat := none
  stream_index : Option Int := none
  num_frames : Option Nat := none
  interaction_num : Option Nat := none
  countdown_secs : Option Nat := none
  countdown : Option Bool := none
  user_save_dir : Option String := none
deriving DecidableEq, Repr

/-- The empty record `{}` returned by `load_prefs` for a missing file. -/
def emptyPrefs : PrefsDict := {}

/-- `save_prefs`: the record serialised to `user_prefs.json`.  Note the
`intensity` key receives `self.dc.get_intensity()` directly — the raw
readback value, with no division by 263. -/
def save_prefs (s : GUIState) : PrefsDict :=
  { intensity := get_intensity s.dc,
    stream_index := some s.stream_index,
    num_frames := some s.num_frames,
    interaction_num := some s.interaction_num,
    countdown_secs := some s.countdown_secs,
    countdown := some s.countdown,
    user_save_dir := some s.user_save_dir }

/-- The preferences file as found on disk at startup: absent, present but
not valid JSON, or a parsed record. -/
inductive PrefsFile where
  | missing
  | invalid
  | valid (p : PrefsDict)
deriving DecidableEq, Repr

/-- `load_prefs`: when the file exists its contents are passed to
`json.load`, whose `JSONDecodeError` on malformed contents propagates to the
caller (modelled as `Except.error`); a missing file yields `{}`. -/
def load_prefs : PrefsFile → Except String PrefsDict
  | PrefsFile.missing => Except.ok emptyPrefs
  | PrefsFile.invalid => Except.error "json.decoder.JSONDecodeError"
  | PrefsFile.valid p => Except.ok p

/-- `apply_prefs(prefs)`: applies each present key.  The loaded intensity is
divided by 263 before being used as slider position and device set-point;
the stream index is pushed to the combobox and the controller and the pump
interval refreshed; the remaining keys overwrite the plain fields (their
spinbox refreshes only mirror the fields). -/
def apply_prefs (s : GUIState) (p : PrefsDict) : GUIState :=
  let s :=
    match p.intensity with
    | some v =>
        let s := { s with intensity_slider := v / 263 }
        { s with dc := (set_intensity s.dc (v / 263)).1 }
    | none => s
  let s :=
    match p.stream_index with
    | some i =>
        let s := { s with stream_index := i }
        let s := { s with dc := (set_stream s.dc i).1 }
        refresh_update_interval s
    | none => s
  let s :=
    match p.num_frames with
    | some v => { s with num_frames := v }
    | none => s
  let s :=
    match p.interaction_num with
    | some v => { s with interaction_num := v }
    | none => s
  let s :=
    match p.countdown_secs with
    | some v => { s with countdown_secs := v }
    | none => s
  let s :=
    match p.countdown with
    | some v => { s with countdown := v }
    | none => s
  match p.user_save_dir with
  | some v => { s with user_save_dir := v }
  | none => s

/-- The `Digit.STREAMS` table of the external `digit_interface` driver:
VGA (640x480) at 30 and 15 fps, then QVGA (320x240) at 60 and 30 fps — the
enumeration order reflected by the comments in `digit_gui.py` (catalog index
0 is the VGA mode, index 2 the default "QVGA 60fps"). -/
def STREAMS : StreamsTable :=
  [ { mode := "VGA", fps := [("30fps", 30), ("15fps", 15)],
      resolution := { width := 640, height := 480 } },
    { mode := "QVGA", fps := [("60fps", 60), ("30fps", 30)],
      resolution := { width := 320, height := 240 } } ]

/-- A freshly connected device handle in its default configuration
(QVGA 60fps, full lighting: readback 3945 = 15 * 263). -/
def device0 : DigitDevice :=
  { fps := 60, resolution := { width := 320, height := 240 },
    intensity := 3945, lightingMin := 0, lightingMax := 15, ops := [] }

/-- A controller that connected to `device0`. -/
def connectedController : DigitController :=
  mkController (some (device0, "D00001")) STREAMS

/-- The controller state after `__init__` when no device was found or the
connection failed: no handle, no serial, empty catalog lists. -/
def controllerNoDevice : DigitController :=
  mkController none STREAMS

/-- A concrete idle GUI state after a successful connect and setup (the
save-directory path concretises the environment-dependent
`os.path.dirname(os.path.abspath(__file__))` default). -/
def baseState : GUIState :=
  { dc := connectedController, gui := true, view_running := true,
    capturing := false, update_interval := 16,
    user_save_dir := "/home/user/digit", save_dir := "/home/user/digit",
    num_frames := 1, interaction_num := 1, countdown_secs := 1,
    countdown := false, frame_count := 0, intensity_slider := 15,
    stream_index := 2, gui_enabled := true, lost_popup := false,
    status := "Ready to capture", statusLog := [],
    existing_dirs := ["/home/user/digit"], files_written := [],
    scheduled := [] }

/-! Projection lemmas for `capture_frame` and branch lemmas for
`start_capture`, used to evaluate capture runs without expanding the whole
state record. -/

theorem capture_frame_num_frames (wr : Bool) (t : GUIState) :
    (capture_frame wr t).num_frames = t.num_frames := by
  cases wr <;>
    simp only [capture_frame, setStatus, save_frame_file, capture_complete,
      Bool.false_eq_true, ite_true, ite_false, if_true, if_false] <;>
    split <;> (try split) <;> rfl

theorem capture_frame_save_dir (wr : Bool) (t : GUIState) :
    (capture_frame wr t).save_dir = t.save_dir := by
  cases wr <;>
    simp only [capture_frame, setStatus, save_frame_file, capture_complete,
      Bool.false_eq_true, ite_true, ite_false, if_true, if_false] <;>
    split <;> (try split) <;> rfl

theorem capture_frame_user_save_dir (wr : Bool) (t : GUIState) :
    (capture_frame wr t).user_save_dir = t.user_save_dir := by
  cases wr <;>
    simp only [capture_frame, setStatus, save_frame_file, capture_complete,
      Bool.false_eq_true, ite_true, ite_false, if_true, if_false] <;>
    split <;> (try split) <;> rfl

theorem capture_frame_existing_dirs (wr : Bool) (t : GUIState) :
    (capture_frame wr t).existing_dirs = t.existing_dirs := by
  cases wr <;>
    simp only [capture_frame, setStatus, save_frame_file, capture_complete,
      Bool.false_eq_true, ite_true, ite_false, if_true, if_false] <;>
    split <;> (try split) <;> rfl

theorem capture_frame_interaction_num (wr : Bool) (t : GUIState) :
    (capture_frame wr t).interaction_num =
      if t.num_frames ≤ t.frame_count + 1 then
        (if t.interaction_num < MAX_INTERACTION_NUM then t.interaction_num + 1
         else t.interaction_num)
      else t.interaction_num := by
  cases wr <;>
    simp only [capture_frame, setStatus, save_frame_file, capture_complete,
      Bool.false_eq_true, ite_true, ite_false, if_true, if_false, ge_iff_le] <;>
    split <;> (try split) <;> simp_all

theorem capture_frame_capturing (wr : Bool) (t : GUIState) :
    (capture_frame wr t).capturing =
      if t.num_frames ≤ t.frame_count + 1 then false else t.capturing := by
  cases wr <;>
    simp only [capture_frame, setStatus, save_frame_file, capture_complete,
      Bool.false_eq_true, ite_true, ite_false, if_true, if_false, ge_iff_le] <;>
    split <;> (try split) <;> simp_all

theorem capture_frame_frame_count (wr : Bool) (t : GUIState) :
    (capture_frame wr t).frame_count =
      if t.num_frames ≤ t.frame_count + 1 then 0 else t.frame_count + 1 := by
  cases wr <;>
    simp only [capture_frame, setStatus, save_frame_file, capture_complete,
      Bool.false_eq_true, ite_true, ite_false, if_true, if_false, ge_iff_le] <;>
    split <;> (try split) <;> simp_all

theorem capture_frame_files_written (wr : Bool) (t : GUIState) :
    (capture_frame wr t).files_written =
      t.files_written ++
        (if wr then
          [t.save_dir ++ "/" ++
            (if 1 < t.num_frames then "frame_" ++ pad_number (t.frame_count + 1)
             else "interaction_" ++ pad_number t.interaction_num) ++ ".jpg"]
         else []) := by
  cases wr <;>
    simp only [capture_frame, setStatus, save_frame_file, capture_complete,
      Bool.false_eq_true, ite_true, ite_false, if_true, if_false, ge_iff_le,
      gt_iff_lt] <;>
    split <;> (try split) <;> simp_all

theorem start_capture_multi (s : GUIState) (h : 1 < s.num_frames)
    (hc : s.countdown = false) :
    start_capture s =
      { s with
        gui_enabled := false,
        save_dir := s.user_save_dir ++ "/interaction_" ++ pad_number s.interaction_num,
        existing_dirs :=
          (s.user_save_dir ++ "/interaction_" ++ pad_number s.interaction_num)
            :: s.existing_dirs,
        frame_count := 0, capturing := true } := by
  simp [start_capture, get_save_dir, disable_gui, h, hc]

theorem start_capture_single (s : GUIState) (h : s.num_frames = 1)
    (hex : s.user_save_dir ∈ s.existing_dirs) (hc : s.countdown = false) :
    start_capture s =
      { s with
        gui_enabled := false, save_dir := s.user_save_dir,
        frame_count := 0, capturing := true } := by
  simp [start_capture, get_save_dir, disable_gui, h, hc, hex]

/-- The C1 scenario: idle state configured for a 5-frame capture of
interaction 3. -/
def stateC1 : GUIState := { baseState with num_frames := 5, interaction_num := 3 }

/-- An idle state whose interaction counter sits at the maximum 9999. -/
def stateMax : GUIState := { baseState with interaction_num := 9999 }

set_option maxHeartbeats 1000000 in
/-- C1: a capture with `numFrames = 5` and `interactionNumber = 3` in which
every frame write succeeds resolves the target directory to
`saveDirectory/interaction_0003`, writes exactly
`frame_0001.jpg` … `frame_0005.jpg` into it, leaves the interaction counter
at 3 after each of the first four frames, and increments it to 4 exactly
once, at completion (the fifth frame); in general `capture_frame` never
touches the counter before the final frame, and `capture_complete` leaves
the counter unchanged once it has reached `MAX_INTERACTION_NUM` (9999). -/
theorem c1_capture_five_frames (s : GUIState)
    (h1 : s.num_frames = 5) (h2 : s.interaction_num = 3)
    (h3 : s.countdown = false) (h4 : s.files_written = []) :
    (start_capture s).save_dir = s.user_save_dir ++ "/interaction_0003" ∧
    (start_capture s).capturing = true ∧
    (capture_frame true (start_capture s)).interaction_num = 3 ∧
    (capture_frame true (capture_frame true (start_capture s))).interaction_num = 3 ∧
    (capture_frame true (capture_frame true (capture_frame true
      (start_capture s)))).interaction_num = 3 ∧
    (capture_frame true (capture_frame true (capture_frame true (capture_frame true
      (start_capture s))))).interaction_num = 3 ∧
    (capture_frame true (capture_frame true (capture_frame true (capture_frame true
      (capture_frame true (start_capture s)))))).files_written =
      [s.user_save_dir ++ "/interaction_0003/frame_0001.jpg",
       s.user_save_dir ++ "/interaction_0003/frame_0002.jpg",
       s.user_save_dir ++ "/interaction_0003/frame_0003.jpg",
       s.user_save_dir ++ "/interaction_0003/frame_0004.jpg",
       s.user_save_dir ++ "/interaction_0003/frame_0005.jpg"] ∧
    (capture_frame true (capture_frame true (capture_frame true (capture_frame true
      (capture_frame true (start_capture s)))))).interaction_num = 4 ∧
    (capture_frame true (capture_frame true (capture_frame true (capture_frame true
      (capture_frame true (start_capture s)))))).capturing = false ∧
    (∀ (t : GUIState) (wr : Bool), t.frame_count + 1 < t.num_frames →
      (capture_frame wr t).interaction_num = t.interaction_num) ∧
    (∀ t : GUIState, MAX_INTERACTION_NUM ≤ t.interaction_num →
      (capture_complete t).interaction_num = t.interaction_num) := by
  have honly : ∀ (t : GUIState) (wr : Bool), t.frame_count + 1 < t.num_frames →
      (capture_frame wr t).interaction_num = t.interaction_num := by
    intro t wr h
    rw [capture_frame_interaction_num, if_neg (by omega)]
  have hmax : ∀ t : GUIState, MAX_INTERACTION_NUM ≤ t.interaction_num →
      (capture_complete t).interaction_num = t.interaction_num := by
    intro t h
    simp only [capture_complete]
    rw [if_neg (by omega)]
  rw [start_capture_multi s (by omega) h3]
  refine ⟨?_, rfl, ?_, ?_, ?_, ?_, ?_, ?_, ?_, honly, hmax⟩ <;>
    simp only [capture_frame_interaction_num, capture_frame_frame_count,
      capture_frame_num_frames, capture_frame_capturing, capture_frame_save_dir,
      capture_frame_files_written, h1, h2, MAX_INTERACTION_NUM] <;>
    norm_num
  · rw [String.append_assoc]
    congr 1
  · simp only [String.append_assoc, List.cons.injEq, and_true, h4]
    norm_num
    refine ⟨?_, ?_, ?_, ?_, ?_⟩ <;> congr 1

/-- Witness for C1 at the concrete state `stateC1` (and, for the two
general conjuncts, at `stateMax` and `stateC1`). -/
theorem c1_capture_five_frames_witness :
    (start_capture stateC1).save_dir =
      stateC1.user_save_dir ++ "/interaction_0003" ∧
    (capture_frame true (capture_frame true (capture_frame true (capture_frame true
      (capture_frame true (start_capture stateC1)))))).interaction_num = 4 ∧
    (capture_frame true stateC1).interaction_num = stateC1.interaction_num ∧
    (capture_complete stateMax).interaction_num = stateMax.interaction_num := by
  have H := c1_capture_five_frames stateC1 rfl rfl rfl rfl
  exact ⟨H.1, H.2.2.2.2.2.2.2.1,
    H.2.2.2.2.2.2.2.2.2.1 stateC1 true (by decide),
    H.2.2.2.2.2.2.2.2.2.2 stateMax (by decide)⟩

/-- The C5 scenario: idle state configured for a single-frame capture of
interaction 7. -/
def stateC5 : GUIState := { baseState with num_frames := 1, interaction_num := 7 }

/-- C5: a capture with `numFrames = 1` and `interactionNumber = 7` resolves
the target directory to `saveDirectory` itself, writes exactly one file
`interaction_0007.jpg` directly into it, and creates no interaction
subfolder (the set of existing directories is unchanged). -/
theorem c5_single_frame_capture (s : GUIState)
    (h1 : s.num_frames = 1) (h2 : s.interaction_num = 7)
    (h3 : s.countdown = false) (h4 : s.files_written = [])
    (h5 : s.user_save_dir ∈ s.existing_dirs) :
    (start_capture s).save_dir = s.user_save_dir ∧
    (capture_frame true (start_capture s)).files_written =
      [s.user_save_dir ++ "/interaction_0007.jpg"] ∧
    (capture_frame true (start_capture s)).existing_dirs = s.existing_dirs := by
  simp only [start_capture, get_save_dir, disable_gui, capture_frame, setStatus,
    save_frame_file, capture_complete, h1, h2, h3, h4, gt_iff_lt, lt_irrefl,
    if_false, ite_false]
  simp only [h5, not_true_eq_false, if_false, ite_false, MAX_INTERACTION_NUM]
  norm_num
  rw [String.append_assoc, String.append_assoc]
  congr 1

/-- Witness for C5 at the concrete state `stateC5`. -/
theorem c5_single_frame_capture_witness :
    (start_capture stateC5).save_dir = stateC5.user_save_dir ∧
    (capture_frame true (start_capture stateC5)).files_written =
      [stateC5.user_save_dir ++ "/interaction_0007.jpg"] ∧
    (capture_frame true (start_capture stateC5)).existing_dirs =
      stateC5.existing_dirs :=
  c5_single_frame_capture stateC5 rfl rfl rfl rfl (by decide)

/-- C3 counterexample: with `countdownSeconds = 1` the countdown emits two
status messages — `"Capturing in 1 seconds..."` and
`"Capturing in 0 seconds..."` — not the single message (`k = 1`) the claim
predicts: `start_countdown` sets the label before testing `seconds > 0`, so
it also fires at zero. -/
theorem c3_countdown_message_count_counterexample :
    (start_countdown baseState 1).statusLog ≠ ["Capturing in 1 seconds..."] := by
  decide

/-- C3 amended: a countdown of `N` seconds emits exactly `N + 1` messages
`"Capturing in k seconds..."`, for `k = N` down to `0`, all before capturing
begins; immediately after the `k = 0` message the frame count is reset and
the capturing flag raised. -/
theorem c3_countdown_messages_amended (s : GUIState) (N : Nat) :
    (start_countdown s N).statusLog =
      s.statusLog ++ (List.range (N + 1)).reverse.map
        (fun k => "Capturing in " ++ toString k ++ " seconds...") ∧
    (start_countdown s N).capturing = true ∧
    (start_countdown s N).frame_count = 0 := by
  induction N generalizing s with
  | zero =>
      refine ⟨?_, rfl, rfl⟩
      simp [start_countdown, setStatus, List.range_succ]
  | succ n ih =>
      refine ⟨?_, (ih _).2.1, (ih _).2.2⟩
      have hlog := (ih (setStatus s ("Capturing in " ++ toString (n + 1) ++ " seconds..."))).1
      simp only [start_countdown] at hlog ⊢
      rw [hlog]
      simp [setStatus, List.range_succ, List.append_assoc]

/-- The C2 scenario: a connected GUI whose device reads back the maximal
raw intensity 4095. -/
def stateC2 : GUIState :=
  { baseState with
    dc := mkController (some ({ device0 with intensity := 4095 }, "D00001")) STREAMS }

/-- C2 counterexample: `save_prefs` writes `self.dc.get_intensity()` to the
record without the division by 263, so with a raw readback of 4095 the
persisted `intensity` field is 4095 — not a set-scale (0–15) value. -/
theorem c2_persisted_intensity_raw_counterexample :
    (save_prefs stateC2).intensity = some 4095 ∧ ¬ (4095 ≤ 15) := by
  decide

/-- C2 amended: the persisted `intensity` field holds the raw readback
value unscaled; the fixed scale-down by 263 is applied when a value is used
as a set-point — in particular `apply_prefs` divides the loaded intensity
by 263 before placing it on the slider and forwarding it to the
controller's `set_intensity`. -/
theorem c2_intensity_scaling_amended :
    (∀ s : GUIState, (save_prefs s).intensity = get_intensity s.dc) ∧
    (∀ (s : GUIState) (v : Nat),
      (apply_prefs s { intensity := some v }).intensity_slider = v / 263 ∧
      (apply_prefs s { intensity := some v }).dc = (set_intensity s.dc (v / 263)).1) := by
  refine ⟨fun s => rfl, fun s v => ⟨?_, ?_⟩⟩ <;> rfl

/-- C8 counterexample: `load_prefs` guards only against a missing file; when
the file exists but its contents are unparseable, the `json.load` exception
propagates to the caller instead of defaults being returned. -/
theorem c8_unparseable_raises_counterexample :
    load_prefs PrefsFile.invalid = Except.error "json.decoder.JSONDecodeError" := rfl

/-- C8 amended: a missing preferences file yields the empty record (and
applying the empty record leaves every setting unchanged, so defaults are
kept), and a parseable file yields its record; an unparseable file,
however, raises to the caller. -/
theorem c8_load_prefs_amended :
    load_prefs PrefsFile.missing = Except.ok emptyPrefs ∧
    (∀ p : PrefsDict, load_prefs (PrefsFile.valid p) = Except.ok p) ∧
    (∀ s : GUIState, apply_prefs s emptyPrefs = s) ∧
    (∃ e : String, load_prefs PrefsFile.invalid = Except.error e) := by
  exact ⟨rfl, fun p => rfl, fun s => rfl, ⟨"json.decoder.JSONDecodeError", rfl⟩⟩

/-- C10: with no device handle (`digit is None`, the failed-connection
controller state), every public controller operation is total at the
interface: the getters return `None` (or the empty list for the stream
strings), `set_stream` and `set_intensity` return `False` without touching
hardware or state, and `disconnect` does nothing. -/
theorem c10_no_device_safety :
    get_stream_strings controllerNoDevice = [] ∧
    get_max_intensity controllerNoDevice = none ∧
    get_min_intensity controllerNoDevice = none ∧
    get_stream_mode controllerNoDevice = none ∧
    get_resolution controllerNoDevice = none ∧
    get_fps controllerNoDevice = none ∧
    get_intensity controllerNoDevice = none ∧
    get_frame controllerNoDevice = none ∧
    (∀ i : Int, set_stream controllerNoDevice i = (controllerNoDevice, false)) ∧
    (∀ v : Nat, set_intensity controllerNoDevice v = (controllerNoDevice, false)) ∧
    controllerDisconnect controllerNoDevice = controllerNoDevice := by
  exact ⟨rfl, rfl, rfl, rfl, rfl, rfl, rfl, rfl, fun i => rfl, fun v => rfl, rfl⟩

/-- C6: each of the three spinbox validators accepts a numeric input within
its bound (`numFrames ∈ [1,600]`, `interactionNumber ∈ [1,9999]`,
`countdownSeconds ∈ [1,10]`), storing exactly the entered value, and refuses
any numeric input outside the bound, leaving the previously stored value
unchanged — never clamping. -/
theorem c6_setter_bounds (s : GUIState) (value : String) (v : Nat)
    (hd : pyIsDigit value = true) (hv : pyInt value = v) :
    ((¬ (1 ≤ v ∧ v ≤ MAX_NUM_FRAMES)) →
      validate_num_frames s value = (s, false)) ∧
    ((1 ≤ v ∧ v ≤ MAX_NUM_FRAMES) →
      validate_num_frames s value = ({ s with num_frames := v }, true)) ∧
    ((¬ (1 ≤ v ∧ v ≤ MAX_INTERACTION_NUM)) →
      validate_interaction_num s value = (s, false)) ∧
    ((1 ≤ v ∧ v ≤ MAX_INTERACTION_NUM) →
      validate_interaction_num s value = ({ s with interaction_num := v }, true)) ∧
    ((¬ (1 ≤ v ∧ v ≤ MAX_COUNTDOWN_SECS)) →
      validate_countdown_secs s value = (s, false)) ∧
    ((1 ≤ v ∧ v ≤ MAX_COUNTDOWN_SECS) →
      validate_countdown_secs s value = ({ s with countdown_secs := v }, true)) := by
  have hne : ¬ (value = "") := by
    intro h
    rw [h] at hd
    simp [pyIsDigit] at hd
  refine ⟨?_, ?_, ?_, ?_, ?_, ?_⟩ <;> intro hb <;>
    simp only [validate_num_frames, validate_interaction_num, validate_countdown_secs,
      hne, if_false, ite_false, hd, if_true, ite_true, hv]
  · rw [if_neg hb]
  · rw [if_pos hb]
  · rw [if_neg hb]
  · rw [if_pos hb]
  · rw [if_neg hb]
  · rw [if_pos hb]

/-- Witness for C6: the out-of-range input 700 is refused and the in-range
input 600 is stored, on the concrete base state. -/
theorem c6_setter_bounds_witness :
    validate_num_frames baseState "700" = (baseState, false) ∧
    validate_num_frames baseState "600" =
      ({ baseState with num_frames := 600 }, true) :=
  ⟨(c6_setter_bounds baseState "700" 700 (by decide) (by decide)).1 (by decide),
   (c6_setter_bounds baseState "600" 600 (by decide) (by decide)).2.1 (by decide)⟩

theorem start_countdown_gui_enabled (s : GUIState) (n : Nat) :
    (start_countdown s n).gui_enabled = s.gui_enabled := by
  induction n generalizing s with
  | zero => rfl
  | succ n ih => simp only [start_countdown]; rw [ih]; rfl

theorem start_capture_gui_enabled (s : GUIState) :
    (start_capture s).gui_enabled = false := by
  simp only [start_capture, get_save_dir, disable_gui]
  split <;> split <;> (try split) <;>
    simp [start_countdown_gui_enabled, setStatus]

theorem capture_frame_gui_enabled (wr : Bool) (t : GUIState) :
    (capture_frame wr t).gui_enabled = t.gui_enabled := by
  cases wr <;>
    simp only [capture_frame, setStatus, save_frame_file, capture_complete,
      Bool.false_eq_true, ite_true, ite_false, if_true, if_false] <;>
    split <;> (try split) <;> rfl

/-- C9: stopping the live-view pump twice equals stopping it once, and a
second press of the Capture button has no effect beyond the first: every
path through `start_capture` leaves the widgets disabled (and frame capture
never re-enables them), and a press while the widgets are disabled is a
no-op — so no frame-count reset, no directory re-resolution, no state
change. -/
theorem c9_idempotence :
    (∀ s : GUIState, pump_stop (pump_stop s) = pump_stop s) ∧
    (∀ s : GUIState, press_capture (press_capture s) = press_capture s) ∧
    (∀ s : GUIState, s.gui_enabled = false → press_capture s = s) ∧
    (∀ s : GUIState, (start_capture s).gui_enabled = false) ∧
    (∀ (s : GUIState) (wr : Bool), (capture_frame wr s).gui_enabled = s.gui_enabled) := by
  refine ⟨fun s => rfl, ?_, fun s h => by simp [press_capture, h],
    start_capture_gui_enabled, fun s wr => capture_frame_gui_enabled wr s⟩
  intro s
  by_cases h : s.gui_enabled
  · simp [press_capture, h, start_capture_gui_enabled]
  · simp [press_capture, h]

/-- A reachable mid-capture state: two of five frames captured. -/
def stateC4 : GUIState :=
  capture_frame true (capture_frame true (start_capture stateC1))

/-- Witness for C9: both idempotence laws at the base state, and a no-op
press at the reachable mid-capture state (whose widgets are disabled). -/
theorem c9_idempotence_witness :
    pump_stop (pump_stop baseState) = pump_stop baseState ∧
    press_capture (press_capture baseState) = press_capture baseState ∧
    press_capture stateC4 = stateC4 :=
  ⟨c9_idempotence.1 baseState, c9_idempotence.2.1 baseState,
   c9_idempotence.2.2.1 stateC4 (by decide)⟩

/-- C4 counterexample: when frame acquisition raises after 2 of 5 frames,
the handler only disables the GUI and shows the lost-connection popup — the
capturing flag stays raised and the partial frame count stays 2, so the
orchestrator is *not* force-reset to its idle state and the partial count is
not discarded in-process. -/
theorem c4_disconnect_not_reset_counterexample :
    stateC4.capturing = true ∧ stateC4.frame_count = 2 ∧
    (update_video_frame FrameResult.err true stateC4).1.capturing = true ∧
    (update_video_frame FrameResult.err true stateC4).1.frame_count = 2 := by
  decide

/-- One invocation of the `start_countdown(seconds)` callback: it sets the
label and either hands the argument of the next chained `root.after`
invocation back to the scheduler (`some (seconds - 1)`) or, at zero, resets
the frame count and raises the capturing flag (`none`: nothing further
chained).  `start_countdown` is exactly the completed chain of these
one-shot callbacks (see `start_countdown_eq_step`). -/
def countdown_step (s : GUIState) (seconds : Nat) : GUIState × Option Nat :=
  let s1 := setStatus s ("Capturing in " ++ toString seconds ++ " seconds...")
  match seconds with
  | Nat.succ n => (s1, some n)
  | 0 => ({ s1 with frame_count := 0, capturing := true }, none)

theorem start_countdown_eq_step (s : GUIState) (n : Nat) :
    start_countdown s n =
      match countdown_step s n with
      | (s1, some m) => start_countdown s1 m
      | (s1, none) => s1 := by
  cases n <;> rfl

theorem start_countdown_interaction_num (s : GUIState) (n : Nat) :
    (start_countdown s n).interaction_num = s.interaction_num := by
  induction n generalizing s with
  | zero => rfl
  | succ n ih => simp only [start_countdown]; rw [ih]; rfl

theorem start_countdown_files_written (s : GUIState) (n : Nat) :
    (start_countdown s n).files_written = s.files_written := by
  induction n generalizing s with
  | zero => rfl
  | succ n ih => simp only [start_countdown]; rw [ih]; rfl

theorem start_countdown_scheduled (s : GUIState) (n : Nat) :
    (start_countdown s n).scheduled = s.scheduled := by
  induction n generalizing s with
  | zero => rfl
  | succ n ih => simp only [start_countdown]; rw [ih]; rfl

theorem start_countdown_lost_popup (s : GUIState) (n : Nat) :
    (start_countdown s n).lost_popup = s.lost_popup := by
  induction n generalizing s with
  | zero => rfl
  | succ n ih => simp only [start_countdown]; rw [ih]; rfl

theorem start_countdown_capturing (s : GUIState) (n : Nat) :
    (start_countdown s n).capturing = true := by
  induction n generalizing s with
  | zero => rfl
  | succ n ih => simp only [start_countdown]; exact ih _

theorem start_countdown_statusLog (s : GUIState) (n : Nat) :
    (start_countdown s n).statusLog =
      s.statusLog ++ (List.range (n + 1)).reverse.map
        (fun k => "Capturing in " ++ toString k ++ " seconds...") := by
  induction n generalizing s with
  | zero => simp [start_countdown, setStatus, List.range_succ]
  | succ n ih =>
      simp only [start_countdown]
      rw [ih]
      simp [setStatus, List.range_succ, List.append_assoc]

/-- No countdown status message is the completion message. -/
theorem countdown_msg_ne (t : String) :
    ("Capturing in " ++ t ++ " seconds...") ≠ "Capture complete!" := by
  intro h
  have h2 := congrArg String.length h
  rw [String.length_append, String.length_append] at h2
  rw [show ("Capturing in ").length = 13 from rfl,
    show (" seconds...").length = 11 from rfl,
    show ("Capture complete!").length = 17 from rfl] at h2
  omega

/-- C4 amended: if frame acquisition raises while a capture is in countdown
or in progress, the failing tick itself emits no status, schedules nothing,
does not re-schedule the pump (so, whatever later tick inputs would have
been, no further frame is ever pulled or written), disables the GUI and
shows the lost-connection popup, and leaves every capture field — the
interaction counter, frame count, capturing flag, written files, status log
and schedule — exactly as it was.  Hence the counter is never incremented
and `"Capture complete!"` is never emitted.  The orchestrator is *not*
force-reset to idle: mid-capture the capturing flag and partial frame count
stay set, and mid-countdown the already-chained `start_countdown` callbacks
(pending argument `k`) keep firing after the disconnect, emitting the
remaining `"Capturing in k seconds..."` … `"Capturing in 0 seconds..."`
messages — none of which is the completion message — and finally raising
the capturing flag, though the dead pump ensures no frame is ever
captured. -/
theorem c4_disconnect_abort_amended (s : GUIState) (wr : Bool)
    (rest : List (FrameResult × Bool)) (k : Nat)
    (h1 : s.view_running = true) :
    (update_video_frame FrameResult.err wr s).2 = false ∧
    runPump ((FrameResult.err, wr) :: rest) s =
      { disable_gui s with lost_popup := true } ∧
    (runPump ((FrameResult.err, wr) :: rest) s).interaction_num =
      s.interaction_num ∧
    (runPump ((FrameResult.err, wr) :: rest) s).statusLog = s.statusLog ∧
    (runPump ((FrameResult.err, wr) :: rest) s).scheduled = s.scheduled ∧
    (runPump ((FrameResult.err, wr) :: rest) s).capturing = s.capturing ∧
    (runPump ((FrameResult.err, wr) :: rest) s).frame_count = s.frame_count ∧
    (runPump ((FrameResult.err, wr) :: rest) s).files_written = s.files_written ∧
    (runPump ((FrameResult.err, wr) :: rest) s).gui_enabled = false ∧
    (runPump ((FrameResult.err, wr) :: rest) s).lost_popup = true ∧
    (start_countdown (runPump ((FrameResult.err, wr) :: rest) s) k).interaction_num =
      s.interaction_num ∧
    (start_countdown (runPump ((FrameResult.err, wr) :: rest) s) k).files_written =
      s.files_written ∧
    (start_countdown (runPump ((FrameResult.err, wr) :: rest) s) k).scheduled =
      s.scheduled ∧
    (start_countdown (runPump ((FrameResult.err, wr) :: rest) s) k).gui_enabled =
      false ∧
    (start_countdown (runPump ((FrameResult.err, wr) :: rest) s) k).lost_popup =
      true ∧
    (start_countdown (runPump ((FrameResult.err, wr) :: rest) s) k).capturing =
      true ∧
    (start_countdown (runPump ((FrameResult.err, wr) :: rest) s) k).statusLog =
      s.statusLog ++ (List.range (k + 1)).reverse.map
        (fun j => "Capturing in " ++ toString j ++ " seconds...") ∧
    ("Capture complete!" ∉ s.statusLog →
      ("Capture complete!" ∉
          (runPump ((FrameResult.err, wr) :: rest) s).statusLog ∧
        "Capture complete!" ∉
          (start_countdown (runPump ((FrameResult.err, wr) :: rest) s) k).statusLog)) := by
  have hstep : update_video_frame FrameResult.err wr s =
      ({ disable_gui s with lost_popup := true }, false) := by
    simp [update_video_frame, h1]
  have hrun : runPump ((FrameResult.err, wr) :: rest) s =
      { disable_gui s with lost_popup := true } := by
    simp [runPump, hstep]
  have hmsg : ∀ L : List Nat, "Capture complete!" ∉
      L.map (fun j => "Capturing in " ++ toString j ++ " seconds...") := by
    intro L hm
    obtain ⟨j, hj, he⟩ := List.mem_map.mp hm
    exact countdown_msg_ne (toString j) he
  refine ⟨by rw [hstep], hrun, ?_, ?_, ?_, ?_, ?_, ?_, ?_, ?_, ?_, ?_, ?_, ?_, ?_,
    ?_, ?_, ?_⟩ <;>
    rw [hrun] <;>
    simp only [start_countdown_interaction_num, start_countdown_files_written,
      start_countdown_scheduled, start_countdown_lost_popup,
      start_countdown_capturing, start_countdown_gui_enabled,
      start_countdown_statusLog, disable_gui]
  · intro hni
    refine ⟨hni, ?_⟩
    intro hmem
    rcases List.mem_append.mp hmem with hl | hr
    · exact hni hl
    · exact hmsg _ hr

/-- The C4 countdown scenario: `stateC1` with countdown enabled for 3
seconds. -/
def stateC1cd : GUIState := { stateC1 with countdown := true, countdown_secs := 3 }

/-- A reachable mid-countdown state: starting the capture from `stateC1cd`
prepares the directory and runs the first `start_countdown(3)` callback,
whose chained `start_countdown(2)` invocation is still pending (see
`countdown_capture_passes_through`). -/
def stateC4cd : GUIState :=
  (countdown_step
    { stateC1cd with
      gui_enabled := false,
      save_dir := stateC1cd.user_save_dir ++ "/interaction_" ++
        pad_number stateC1cd.interaction_num,
      existing_dirs :=
        (stateC1cd.user_save_dir ++ "/interaction_" ++
          pad_number stateC1cd.interaction_num) :: stateC1cd.existing_dirs } 3).1

/-- The countdown-enabled capture from `stateC1cd` passes exactly through
`stateC4cd` with the `start_countdown(2)` callback pending: the remainder
of the capture start is that pending chain. -/
theorem countdown_capture_passes_through :
    start_capture stateC1cd = start_countdown stateC4cd 2 := by decide

/-- Witness for C4, applied both at the reachable mid-capture state
`stateC4` (2 of 5 frames written) and at the reachable mid-countdown state
`stateC4cd` (countdown callback for 2 seconds pending). -/
theorem c4_disconnect_abort_amended_witness :
    (update_video_frame FrameResult.err true stateC4).2 = false ∧
    (runPump [(FrameResult.err, true)] stateC4).interaction_num =
      stateC4.interaction_num ∧
    (runPump [(FrameResult.err, true)] stateC4).capturing = stateC4.capturing ∧
    "Capture complete!" ∉ (runPump [(FrameResult.err, true)] stateC4).statusLog ∧
    (runPump [(FrameResult.err, true)] stateC4cd).interaction_num =
      stateC4cd.interaction_num ∧
    (start_countdown (runPump [(FrameResult.err, true)] stateC4cd) 2).interaction_num =
      stateC4cd.interaction_num ∧
    (start_countdown (runPump [(FrameResult.err, true)] stateC4cd) 2).files_written =
      stateC4cd.files_written ∧
    (start_countdown (runPump [(FrameResult.err, true)] stateC4cd) 2).capturing =
      true ∧
    "Capture complete!" ∉
      (start_countdown (runPump [(FrameResult.err, true)] stateC4cd) 2).statusLog := by
  have H1 := c4_disconnect_abort_amended stateC4 true [] 0 (by decide)
  have H2 := c4_disconnect_abort_amended stateC4cd true [] 2 (by decide)
  obtain ⟨a1, a2, a3, a4, a5, a6, a7, a8, a9, a10, a11, a12, a13, a14, a15, a16,
    a17, a18⟩ := H1
  obtain ⟨b1, b2, b3, b4, b5, b6, b7, b8, b9, b10, b11, b12, b13, b14, b15, b16,
    b17, b18⟩ := H2
  exact ⟨a1, a3, a6, (a18 (by decide)).1, b3, b11, b12, b16, (b18 (by decide)).2⟩

theorem pyGet?_out (l : List α) (i : Int)
    (h : i < -(l.length : Int) ∨ (l.length : Int) ≤ i) : pyGet? l i = none := by
  simp only [pyGet?]
  rw [if_neg]
  by_cases hi : i < 0 <;> simp only [hi, if_true, if_false, ite_true, ite_false] <;>
    omega

/-- C7 counterexample: on the connected controller (catalog indices 0..3),
`set_stream(-1)` succeeds — Python list indexing wraps negative indices, so
an index outside `[0, N-1]` does not fail as the claim states. -/
theorem c7_negative_index_counterexample :
    (set_stream connectedController (-1)).2 = true ∧ ¬ ((0 : Int) ≤ -1) := by
  decide

/-- C7 amended: while connected, `set_stream(index)` fails (returns
`False`, leaving the controller untouched) exactly for indices outside
`[-N, N-1]` (`N = 4` streams); for every index inside that range — the
claimed `[0, N-1]` as well as the Python-wrapped negatives — it succeeds,
applying the frame rate first and the resolution second. -/
theorem c7_set_stream_bounds_amended (index : Int) :
    ((index < -4 ∨ 4 ≤ index) →
      set_stream connectedController index = (connectedController, false)) ∧
    (-4 ≤ index → index < 4 →
      ∃ (f : Nat) (r : Resolution),
        (set_stream connectedController index).2 = true ∧
        (set_stream connectedController index).1.digit =
          some (digitSetResolution (digitSetFps device0 f) r)) := by
  constructor
  · intro h
    have hm : pyGet? (connectedController.mode_options) index = none := by
      apply pyGet?_out
      simp [connectedController, mkController, populateModes, STREAMS]
      omega
    simp only [set_stream, connectedController, mkController] at hm ⊢
    rw [hm]
  · intro hlo hhi
    interval_cases index
    · exact ⟨30, { width := 640, height := 480 }, by decide, by decide⟩
    · exact ⟨15, { width := 640, height := 480 }, by decide, by decide⟩
    · exact ⟨60, { width := 320, height := 240 }, by decide, by decide⟩
    · exact ⟨30, { width := 320, height := 240 }, by decide, by decide⟩
    · exact ⟨30, { width := 640, height := 480 }, by decide, by decide⟩
    · exact ⟨15, { width := 640, height := 480 }, by decide, by decide⟩
    · exact ⟨60, { width := 320, height := 240 }, by decide, by decide⟩
    · exact ⟨30, { width := 320, height := 240 }, by decide, by decide⟩

/-- Witness for C7: index 5 is rejected; index 2 succeeds with frame rate
applied before resolution. -/
theorem c7_set_stream_bounds_amended_witness :
    set_stream connectedController 5 = (connectedController, false) ∧
    ∃ (f : Nat) (r : Resolution),
      (set_stream connectedController 2).2 = true ∧
      (set_stream connectedController 2).1.digit =
        some (digitSetResolution (digitSetFps device0 f) r) :=
  ⟨(c7_set_stream_bounds_amended 5).1 (Or.inr (by decide)),
   (c7_set_stream_bounds_amended 2).2 (by decide) (by decide)⟩

end DigitSpec
